import Mathlib

/-!
Shallow embedding of the Turnkey viem-passkeys demo page
(`src/pages/index.tsx`) and its three pipelines:

* `createSubOrgAndWallet` — passkey ceremony, backend provisioning call,
  smart-account derivation, session-state installation;
* `login` — read-only passkey session, wallet/account enumeration,
  session-state reconstruction;
* `signMessage` — the authorization pipeline: viem account creation,
  user-operation building, paymaster sponsorship, EIP-712 structured-data
  signing, signature formatting, submission and inclusion wait.

Remote calls are modelled by an environment of oracle results (`Res`):
`ok` is a resolved promise, `err` a rejected one.  Each pipeline is a pure
function from the React state plus the environment to the new state and a
trace of observable events (state setters, remote calls, alerts), mirroring
the source's control flow statement by statement, including its try/catch
structure and truthiness guards (an absent/empty string field is falsy).
-/

/-- Result of an awaited remote call: resolved value or thrown error. -/
inductive Res (α : Type) where
  | ok : α → Res α
  | err : String → Res α
deriving DecidableEq, Repr

/-- `TWalletDetails` from `../types` as used by the page:
`{ id, address, subOrgId }`. -/
structure TWalletDetails where
  id : String
  address : String
  subOrgId : String
deriving DecidableEq, Repr

/-- The slice of an abstractionkit `SafeAccount` the page observes:
its deterministic account address and the owner list it was derived from. -/
structure SafeAccount where
  accountAddress : String
  owners : List String
deriving DecidableEq, Repr

/-- Modelled from the spec: `SafeAccount.initializeNewAccount` lives in the
abstractionkit library, not under `src/`.  Per spec 4.3 it is a pure,
deterministic, side-effect-free derivation of a smart-account address from
the (non-empty, ordered) owner-address list. -/
def initializeNewAccount (owners : List String) : SafeAccount :=
  { accountAddress := "safe<" ++ String.intercalate "," owners ++ ">",
    owners := owners }

/-- The fields of a user operation the page threads through the pipeline. -/
structure UserOperation where
  sender : String
  nonce : Nat
  callData : String
  callGasLimit : Nat
  maxFeePerGas : Nat
  paymaster : String
  paymasterData : String
  signature : String
deriving DecidableEq, Repr

/-- A `MetaTransaction` intent: `{ to, value, data }` (`to` rendered as
`toAddress`, `to` being reserved). -/
structure MetaTransaction where
  toAddress : String
  value : Nat
  data : String
deriving DecidableEq, Repr

/-- viem's `zeroAddress`. -/
def zeroAddress : String := "0x0000000000000000000000000000000000000000"

/-- The configuration-supplied chain identifier
(`NEXT_PUBLIC_CHAIN_ID`; Sepolia in the demo's configuration). -/
def chainId : Nat := 11155111

/-- EIP-712 structured data: domain separator, type schema, message value. -/
structure Eip712Data where
  domain : String
  types : String
  messageValue : String
deriving DecidableEq, Repr

/-- Canonical encoding of a user operation's signed fields. -/
def encodeUserOperation (op : UserOperation) : String :=
  op.sender ++ "|" ++ toString op.nonce ++ "|" ++ op.callData ++ "|" ++
    toString op.callGasLimit ++ "|" ++ toString op.maxFeePerGas ++ "|" ++
    op.paymaster ++ "|" ++ op.paymasterData

/-- Modelled from the spec: `SafeAccount.getUserOperationEip712Data` is
abstractionkit library code, not under `src/`.  Per spec 4.7(a) it is the
pure derivation of the canonical structured-data representation (domain
separator, type schema, message value) of the operation under the target
chain. -/
def getUserOperationEip712Data (op : UserOperation) (chain : Nat) :
    Eip712Data :=
  { domain := "EIP712Domain<chainId=" ++ toString chain ++ ">",
    types := "SafeOp",
    messageValue := encodeUserOperation op }

/-- Modelled from the spec:
`SafeAccount.formatEip712SignaturesToUseroperationSignature` is
abstractionkit library code, not under `src/`.  Per spec 4.7(c) it encodes
the raw signatures into the account-specific multi-owner signature
encoding, associated with the given owner-address list. -/
def formatEip712SignaturesToUseroperationSignature
    (owners : List String) (sigs : List String) : String :=
  String.intercalate ";" owners ++ "#" ++ String.intercalate ";" sigs

/-- The page's React state: `wallet`, `smartWallet`, `txHash`,
`userOpHash`. -/
structure AppState where
  wallet : Option TWalletDetails
  smartWallet : Option SafeAccount
  txHash : String
  userOpHash : String
deriving DecidableEq, Repr

/-- Observable events of a pipeline run, in program order: state setters,
remote-call issuances (with the data they carry), the pure signature
formatting step, the inclusion wait, user-facing alerts, and an error
propagating out of a handler that has no try/catch. -/
inductive Event where
  | setTxHash (v : String)
  | setUserOpHash (v : String)
  | createAccountCall (organizationId : String) (signWith : String)
  | createUserOpCall (txs : List MetaTransaction)
  | paymasterCall (op : UserOperation)
  | signTypedDataCall (d : Eip712Data)
  | formatSignatureCall (owners : List String) (sigs : List String)
  | sendUserOpCall (op : UserOperation)
  | includedWait (userOpHash : String)
  | alertShown (msg : String)
  | credentialCeremony
  | provisionPost (subOrgName : String) (challenge : String)
      (attestation : String)
  | uncaughtThrow (msg : String)
deriving DecidableEq, Repr

/-- The alert text `signMessage`'s catch block shows. -/
def alertMsg (m : String) : String :=
  "Failed to submit user operation: " ++ m

/-- Environment of oracle results for one `signMessage` run, one per
awaited remote call.  The paymaster call returns a pair whose first
component is the sponsored operation (the source takes
`paymasterUserOp[0]`). -/
structure SignEnv where
  createAccountRes : Res Unit
  createUserOpRes : Res UserOperation
  paymasterRes : Res (UserOperation × String)
  signTypedDataRes : Res String
  sendRes : Res String
  includedRes : Res String
deriving DecidableEq, Repr

/-- `signMessage` from `src/pages/index.tsx`, statement by statement:
reset both hashes, guard on session presence, create the viem account,
build the user operation for the fixed intent, sponsor it (replacing the
operation wholesale with `paymasterUserOp[0]`), derive EIP-712 data, sign
it, format the signature with `[wallet.address]`, submit, record the
tracking handle, await inclusion, record the transaction hash.  Any thrown
error lands in the catch block, which alerts. -/
def signMessage (st : AppState) (env : SignEnv) : AppState × List Event :=
  let st0 : AppState := { st with txHash := "", userOpHash := "" }
  let ev0 : List Event := [.setTxHash "", .setUserOpHash ""]
  match st0.wallet, st0.smartWallet with
  | some wallet, some _smartWallet =>
    let ev1 := ev0 ++ [.createAccountCall wallet.subOrgId wallet.address]
    match env.createAccountRes with
    | .err m => (st0, ev1 ++ [.alertShown (alertMsg m)])
    | .ok _ =>
      let transaction : MetaTransaction :=
        { toAddress := zeroAddress, value := 0, data := "0x" }
      let ev2 := ev1 ++ [.createUserOpCall [transaction]]
      match env.createUserOpRes with
      | .err m => (st0, ev2 ++ [.alertShown (alertMsg m)])
      | .ok builderOp =>
        let ev3 := ev2 ++ [.paymasterCall builderOp]
        match env.paymasterRes with
        | .err m => (st0, ev3 ++ [.alertShown (alertMsg m)])
        | .ok paymasterUserOp =>
          let userOperation := paymasterUserOp.1
          let d := getUserOperationEip712Data userOperation chainId
          let ev4 := ev3 ++ [.signTypedDataCall d]
          match env.signTypedDataRes with
          | .err m => (st0, ev4 ++ [.alertShown (alertMsg m)])
          | .ok eip712Signature =>
            let signedOp : UserOperation :=
              { userOperation with signature :=
                  (formatEip712SignaturesToUseroperationSignature
                    [wallet.address] [eip712Signature]) }
            let ev5 := ev4 ++
              [.formatSignatureCall [wallet.address] [eip712Signature],
               .sendUserOpCall signedOp]
            match env.sendRes with
            | .err m => (st0, ev5 ++ [.alertShown (alertMsg m)])
            | .ok uoHash =>
              let st1 : AppState := { st0 with userOpHash := uoHash }
              let ev6 := ev5 ++ [.setUserOpHash uoHash, .includedWait uoHash]
              match env.includedRes with
              | .err m => (st1, ev6 ++ [.alertShown (alertMsg m)])
              | .ok tx =>
                ({ st1 with txHash := tx }, ev6 ++ [.setTxHash tx])
  | _, _ => (st0, ev0 ++ [.alertShown (alertMsg "wallet not found")])

/-- A passkey credential's fields as the page reads them; an absent or
empty field is falsy in the source's guard. -/
structure Credential where
  encodedChallenge : String
  attestation : String
deriving DecidableEq, Repr

/-- Environment for one `createSubOrgAndWallet` run: the passkey ceremony
(which may return no credential) and the backend provisioning POST. -/
structure CreateEnv where
  subOrgName : String
  credentialRes : Res (Option Credential)
  postRes : Res TWalletDetails
deriving DecidableEq, Repr

/-- `createSubOrgAndWallet` from `src/pages/index.tsx`: run the passkey
ceremony; if the credential or its challenge/attestation is missing,
return early with no state change; POST to `/api/createSubOrg`; derive the
smart account from the returned address as sole owner; install
`smartWallet` then `wallet`.  The handler has no try/catch, so a thrown
error propagates out with no state change. -/
def createSubOrgAndWallet (st : AppState) (env : CreateEnv) :
    AppState × List Event :=
  match env.credentialRes with
  | .err m => (st, [.credentialCeremony, .uncaughtThrow m])
  | .ok none => (st, [.credentialCeremony])
  | .ok (some credential) =>
    if credential.encodedChallenge = "" ∨ credential.attestation = "" then
      (st, [.credentialCeremony])
    else
      match env.postRes with
      | .err m =>
        (st, [.credentialCeremony,
              .provisionPost env.subOrgName credential.encodedChallenge
                credential.attestation,
              .uncaughtThrow m])
      | .ok response =>
        let smartAccount := initializeNewAccount [response.address]
        ({ st with smartWallet := some smartAccount,
                   wallet := some response },
         [.credentialCeremony,
          .provisionPost env.subOrgName credential.encodedChallenge
            credential.attestation])

/-- The alert text `login`'s catch block shows. -/
def loginAlert (m : String) : String := "caught error: " ++ m

/-- A wallet entry returned by `getWallets`. -/
structure WalletEntry where
  walletId : String
deriving DecidableEq, Repr

/-- An account entry returned by `getWalletAccounts`. -/
structure WalletAccount where
  address : String
deriving DecidableEq, Repr

/-- Environment for one `login` run: the read-only passkey login (its
organization identifier, `none` when the response is absent), the current
session lookup (`false` when absent), the wallet list, the account list. -/
structure LoginEnv where
  loginRes : Res (Option String)
  sessionRes : Res Bool
  walletsRes : Res (List WalletEntry)
  accountsRes : Res (List WalletAccount)
deriving DecidableEq, Repr

/-- The message of the TypeError thrown by indexing an empty array and
reading a property of `undefined`. -/
def typeErrorReading (f : String) : String :=
  "TypeError: Cannot read properties of undefined <reading " ++ f ++ ">"

/-- `login` from `src/pages/index.tsx`: passkey login (silent return when
no organization identifier), current session (silent return when absent),
`getWallets` — note the source reads `walletsResponse?.wallets[0].walletId`,
so an empty wallet list throws a TypeError that lands in the catch block —
silent return when the first `walletId` is falsy; `getWalletAccounts` —
likewise `accounts[0].address` throws on an empty account list — silent
return when the first address is falsy; on full success install `wallet`
and the smart account derived from that address as sole owner.  The catch
block alerts `caught error: ...`. -/
def login (st : AppState) (env : LoginEnv) : AppState × List Event :=
  match env.loginRes with
  | .err m => (st, [.alertShown (loginAlert m)])
  | .ok none => (st, [])
  | .ok (some organizationId) =>
    if organizationId = "" then (st, [])
    else
      match env.sessionRes with
      | .err m => (st, [.alertShown (loginAlert m)])
      | .ok false => (st, [])
      | .ok true =>
        match env.walletsRes with
        | .err m => (st, [.alertShown (loginAlert m)])
        | .ok [] =>
          (st, [.alertShown (loginAlert (typeErrorReading "walletId"))])
        | .ok (w :: _) =>
          if w.walletId = "" then (st, [])
          else
            match env.accountsRes with
            | .err m => (st, [.alertShown (loginAlert m)])
            | .ok [] =>
              (st, [.alertShown (loginAlert (typeErrorReading "address"))])
            | .ok (a :: _) =>
              if a.address = "" then (st, [])
              else
                ({ st with
                     wallet := some { id := w.walletId,
                                      address := a.address,
                                      subOrgId := organizationId },
                     smartWallet :=
                       some (initializeNewAccount [a.address]) },
                 [])

/-- The session invariant: whenever both `wallet` and `smartWallet` are
present, the smart account's owner list is exactly the singleton of the
wallet's address. -/
def sessionConsistent (st : AppState) : Prop :=
  ∀ w sa, st.wallet = some w → st.smartWallet = some sa →
    sa.owners = [w.address]

/-- The page renders the transaction hash only when it is non-empty
(the JSX guard on `txHash`). -/
def displaysTxHash (st : AppState) : Bool := st.txHash != ""

/-! ### Concrete values used by the witness theorems -/

/-- A concrete wallet record. -/
def wDemo : TWalletDetails :=
  { id := "w1", address := "0xa1", subOrgId := "org1" }

/-- The smart account derived from `wDemo`'s address as sole owner. -/
def saDemo : SafeAccount := initializeNewAccount ["0xa1"]

/-- A logged-in state as creation/login install it. -/
def stDemo : AppState :=
  { wallet := some wDemo, smartWallet := some saDemo,
    txHash := "", userOpHash := "" }

/-- A logged-out state. -/
def stAnon : AppState :=
  { wallet := none, smartWallet := none, txHash := "", userOpHash := "" }

/-- A builder-produced unsigned operation. -/
def opDemo : UserOperation :=
  { sender := "0xs", nonce := 1, callData := "0x", callGasLimit := 5,
    maxFeePerGas := 7, paymaster := "", paymasterData := "",
    signature := "0x" }

/-- The paymaster's sponsored operation, differing from `opDemo`. -/
def pmOpDemo : UserOperation :=
  { sender := "0xs", nonce := 1, callData := "0x", callGasLimit := 9,
    maxFeePerGas := 8, paymaster := "0xpm", paymasterData := "0xpd",
    signature := "0x" }

/-- A fully successful `signMessage` environment. -/
def envOkDemo : SignEnv :=
  { createAccountRes := .ok (), createUserOpRes := .ok opDemo,
    paymasterRes := .ok (pmOpDemo, "meta"),
    signTypedDataRes := .ok "sig1", sendRes := .ok "0xuo",
    includedRes := .ok "0xtx" }

/-! ### Claim theorems -/

/-- Claim C1: in every `signMessage` run from a consistent session (the
invariant creation and login install: the smart wallet's owner list is the
singleton of the session wallet's address), the owner-address list passed
to signature formatting is exactly that singleton, i.e. exactly the owner
list used to derive the session's `SafeAccount` address; consequently no
mismatched owner set ever reaches submission. -/
theorem owner_set_matches_derivation (st : AppState) (env : SignEnv)
    (hcons : sessionConsistent st) (owners sigs : List String)
    (hmem : Event.formatSignatureCall owners sigs ∈ (signMessage st env).2) :
    ∃ w sa, st.wallet = some w ∧ st.smartWallet = some sa ∧
      owners = [w.address] ∧ owners = sa.owners := by
  rcases st with ⟨ow, osw, tx0, uo0⟩
  rcases env with ⟨ca, cu, pm, sg, sd, ic⟩
  rcases ow with _ | w
  · simp [signMessage] at hmem
  rcases osw with _ | sa
  · simp [signMessage] at hmem
  refine ⟨w, sa, rfl, rfl, ?_⟩
  have hown : sa.owners = [w.address] := hcons w sa rfl rfl
  rcases ca with u | m
  on_goal 2 => simp [signMessage] at hmem
  rcases cu with bop | m
  on_goal 2 => simp [signMessage] at hmem
  rcases pm with pmp | m
  on_goal 2 => simp [signMessage] at hmem
  rcases sg with s | m
  on_goal 2 => simp [signMessage] at hmem
  rcases sd with uo | m <;> rcases ic with tx | m2 <;>
    · simp [signMessage] at hmem
      exact ⟨hmem.1, by rw [hown, hmem.1]⟩

/-- Witness for C1 at a concrete consistent session and successful
environment. -/
theorem owner_set_matches_derivation_witness :
    ∃ w sa, stDemo.wallet = some w ∧ stDemo.smartWallet = some sa ∧
      ["0xa1"] = [w.address] ∧ ["0xa1"] = sa.owners :=
  owner_set_matches_derivation stDemo envOkDemo
    (by intro w sa hw hsa
        simp [stDemo, wDemo, saDemo, initializeNewAccount] at hw hsa
        subst hw; subst hsa; rfl)
    ["0xa1"] ["sig1"] (by decide)

/-- A `signMessage` environment in which the key service rejects the
structured-data signature. -/
def envSignErrDemo : SignEnv :=
  { envOkDemo with signTypedDataRes := .err "user cancelled" }

/-- A `signMessage` environment in which the paymaster denies
sponsorship. -/
def envPmErrDemo : SignEnv :=
  { envOkDemo with paymasterRes := .err "sponsorship denied" }

/-- Claim C2: when the structured-data signing step fails, `signMessage`
surfaces the signing failure to the user (the alert carries the failure
message) and the user operation is never submitted: the trace ends at the
alert, contains no `sendUserOpCall`, and the state keeps only the initial
hash resets. -/
theorem signing_failure_blocks_submission (st : AppState) (env : SignEnv)
    (w : TWalletDetails) (sa : SafeAccount) (bop : UserOperation)
    (pmp : UserOperation × String) (m : String)
    (hw : st.wallet = some w) (hsa : st.smartWallet = some sa)
    (hca : env.createAccountRes = Res.ok ())
    (hcu : env.createUserOpRes = Res.ok bop)
    (hpm : env.paymasterRes = Res.ok pmp)
    (hsg : env.signTypedDataRes = Res.err m) :
    (signMessage st env).2 =
      [Event.setTxHash "", Event.setUserOpHash "",
       Event.createAccountCall w.subOrgId w.address,
       Event.createUserOpCall
         [{ toAddress := zeroAddress, value := 0, data := "0x" }],
       Event.paymasterCall bop,
       Event.signTypedDataCall (getUserOperationEip712Data pmp.1 chainId),
       Event.alertShown (alertMsg m)] ∧
    (∀ op, Event.sendUserOpCall op ∉ (signMessage st env).2) ∧
    (signMessage st env).1 = { st with txHash := "", userOpHash := "" } := by
  refine ⟨?_, ?_, ?_⟩ <;> simp [signMessage, hw, hsa, hca, hcu, hpm, hsg]

/-- Witness for C2 at a concrete session and environment. -/
theorem signing_failure_blocks_submission_witness :
    (signMessage stDemo envSignErrDemo).1 =
      { stDemo with txHash := "", userOpHash := "" } :=
  (signing_failure_blocks_submission stDemo envSignErrDemo wDemo saDemo
    opDemo (pmOpDemo, "meta") "user cancelled"
    rfl rfl rfl rfl rfl rfl).2.2

/-- Claim C3: when the paymaster denies sponsorship, `signMessage`
surfaces the failure and no signing request is made in that run — the
trace ends at the paymaster call's alert and contains no structured-data
signing, no signature formatting and no submission, so the sponsorship
failure aborts strictly before signing. -/
theorem sponsorship_denial_precedes_signing (st : AppState) (env : SignEnv)
    (w : TWalletDetails) (sa : SafeAccount) (bop : UserOperation)
    (m : String)
    (hw : st.wallet = some w) (hsa : st.smartWallet = some sa)
    (hca : env.createAccountRes = Res.ok ())
    (hcu : env.createUserOpRes = Res.ok bop)
    (hpm : env.paymasterRes = Res.err m) :
    (signMessage st env).2 =
      [Event.setTxHash "", Event.setUserOpHash "",
       Event.createAccountCall w.subOrgId w.address,
       Event.createUserOpCall
         [{ toAddress := zeroAddress, value := 0, data := "0x" }],
       Event.paymasterCall bop,
       Event.alertShown (alertMsg m)] ∧
    (∀ d, Event.signTypedDataCall d ∉ (signMessage st env).2) ∧
    (∀ o s, Event.formatSignatureCall o s ∉ (signMessage st env).2) ∧
    (∀ op, Event.sendUserOpCall op ∉ (signMessage st env).2) ∧
    (signMessage st env).1 = { st with txHash := "", userOpHash := "" } := by
  refine ⟨?_, ?_, ?_, ?_, ?_⟩ <;> simp [signMessage, hw, hsa, hca, hcu, hpm]

/-- Witness for C3 at a concrete session and environment. -/
theorem sponsorship_denial_precedes_signing_witness :
    (signMessage stDemo envPmErrDemo).1 =
      { stDemo with txHash := "", userOpHash := "" } :=
  (sponsorship_denial_precedes_signing stDemo envPmErrDemo wDemo saDemo
    opDemo "sponsorship denied" rfl rfl rfl rfl rfl).2.2.2.2

/-- Claim C4: in a successful run — fixed intent
`(zero-address, 0, empty data)` — submission first records the tracking
handle (`setUserOpHash`, not the terminal result), then the blocking
inclusion wait runs, and only after it resolves is the transaction hash
recorded (`setTxHash` is the last event); the final state carries the
receipt's transaction hash, and the page reports it exactly when it is
non-empty. -/
theorem successful_run_reports_after_inclusion (st : AppState)
    (env : SignEnv) (w : TWalletDetails) (sa : SafeAccount)
    (bop : UserOperation) (pmp : UserOperation × String)
    (s uo tx : String)
    (hw : st.wallet = some w) (hsa : st.smartWallet = some sa)
    (hca : env.createAccountRes = Res.ok ())
    (hcu : env.createUserOpRes = Res.ok bop)
    (hpm : env.paymasterRes = Res.ok pmp)
    (hsg : env.signTypedDataRes = Res.ok s)
    (hsd : env.sendRes = Res.ok uo)
    (hic : env.includedRes = Res.ok tx) :
    (signMessage st env).2 =
      [Event.setTxHash "", Event.setUserOpHash "",
       Event.createAccountCall w.subOrgId w.address,
       Event.createUserOpCall
         [{ toAddress := zeroAddress, value := 0, data := "0x" }],
       Event.paymasterCall bop,
       Event.signTypedDataCall (getUserOperationEip712Data pmp.1 chainId),
       Event.formatSignatureCall [w.address] [s],
       Event.sendUserOpCall
         { pmp.1 with signature :=
             (formatEip712SignaturesToUseroperationSignature
               [w.address] [s]) },
       Event.setUserOpHash uo, Event.includedWait uo,
       Event.setTxHash tx] ∧
    (signMessage st env).1 = { st with txHash := tx, userOpHash := uo } ∧
    (displaysTxHash (signMessage st env).1 = true ↔ tx ≠ "") := by
  refine ⟨?_, ?_, ?_⟩ <;>
    simp [signMessage, displaysTxHash, hw, hsa, hca, hcu, hpm, hsg,
      hsd, hic]

/-- Witness for C4 at a concrete session and fully successful
environment. -/
theorem successful_run_reports_after_inclusion_witness :
    (signMessage stDemo envOkDemo).1 =
      { stDemo with txHash := "0xtx", userOpHash := "0xuo" } :=
  (successful_run_reports_after_inclusion stDemo envOkDemo wDemo saDemo
    opDemo (pmOpDemo, "meta") "sig1" "0xuo" "0xtx"
    rfl rfl rfl rfl rfl rfl rfl rfl).2.1

/-- A login environment in which the key service returns a session but an
empty wallet list. -/
def envLoginNoWallets : LoginEnv :=
  { loginRes := .ok (some "org1"), sessionRes := .ok true,
    walletsRes := .ok [], accountsRes := .ok [] }

/-- A login environment in which the key service returns one wallet but an
empty account list. -/
def envLoginNoAccounts : LoginEnv :=
  { loginRes := .ok (some "org1"), sessionRes := .ok true,
    walletsRes := .ok [{ walletId := "wid1" }], accountsRes := .ok [] }

/-- Claim C5, refuted on the wallets/accounts branches: when `getWallets`
returns an empty list the source's `walletsResponse?.wallets[0].walletId`
throws a TypeError (optional chaining does not guard the `[0]` indexing),
the catch block alerts, and likewise for an empty account list — so the
run is not silent: it issues an error to the user (state is still
unchanged). -/
theorem login_empty_lists_alert :
    ((login stAnon envLoginNoWallets).2 =
       [Event.alertShown (loginAlert (typeErrorReading "walletId"))] ∧
     (login stAnon envLoginNoWallets).1 = stAnon) ∧
    ((login stAnon envLoginNoAccounts).2 =
       [Event.alertShown (loginAlert (typeErrorReading "address"))] ∧
     (login stAnon envLoginNoAccounts).1 = stAnon) ∧
    (login stAnon envLoginNoWallets).2 ≠ [] := by
  refine ⟨⟨?_, ?_⟩, ⟨?_, ?_⟩, ?_⟩ <;> decide

/-- A successful passkey credential. -/
def credDemo : Credential :=
  { encodedChallenge := "ch1", attestation := "at1" }

/-- A fully successful account-creation environment returning `wDemo`. -/
def cenvOkDemo : CreateEnv :=
  { subOrgName := "demo", credentialRes := .ok (some credDemo),
    postRes := .ok wDemo }

/-- A fully successful login environment resolving the same address as
`cenvOkDemo`'s provisioning response. -/
def lenvOkDemo : LoginEnv :=
  { loginRes := .ok (some "org1"), sessionRes := .ok true,
    walletsRes := .ok [{ walletId := "wid1" }],
    accountsRes := .ok [{ address := "0xa1" }] }

/-- An account-creation run succeeds exactly when the ceremony returned a
credential with truthy challenge and attestation and the provisioning
call resolved (the source's only path reaching the two setters). -/
def createRunSucceeds (env : CreateEnv) : Prop :=
  ∃ c resp, env.credentialRes = Res.ok (some c) ∧
    ¬(c.encodedChallenge = "" ∨ c.attestation = "") ∧
    env.postRes = Res.ok resp

/-- A login run succeeds exactly when every lookup resolved with a truthy
value: an organization identifier, a session, a first wallet with a
truthy `walletId`, a first account with a truthy address (the source's
only path reaching the two setters). -/
def loginRunSucceeds (env : LoginEnv) : Prop :=
  ∃ orgId w wss a accs,
    env.loginRes = Res.ok (some orgId) ∧ orgId ≠ "" ∧
    env.sessionRes = Res.ok true ∧
    env.walletsRes = Res.ok (w :: wss) ∧ w.walletId ≠ "" ∧
    env.accountsRes = Res.ok (a :: accs) ∧ a.address ≠ ""

/-- Claim C6: the session-held `wallet`/`smartWallet` pair is updated
all-or-nothing by both pipelines, conditioned on the run's outcome: if
any step of account creation or login fails (the run does not reach the
setters), neither `wallet` nor `smartWallet` is touched in that run; and
on success both are replaced wholesale with a consistent pair — the new
wallet record together with the smart account derived from its address as
sole owner, never one without the other. -/
theorem session_state_failure_aborts_success_replaces (st : AppState)
    (cenv : CreateEnv) (lenv : LoginEnv) :
    (¬ createRunSucceeds cenv →
      (createSubOrgAndWallet st cenv).1.wallet = st.wallet ∧
      (createSubOrgAndWallet st cenv).1.smartWallet = st.smartWallet) ∧
    (∀ c resp, cenv.credentialRes = Res.ok (some c) →
      c.encodedChallenge ≠ "" → c.attestation ≠ "" →
      cenv.postRes = Res.ok resp →
      (createSubOrgAndWallet st cenv).1.wallet = some resp ∧
      (createSubOrgAndWallet st cenv).1.smartWallet =
        some (initializeNewAccount [resp.address])) ∧
    (¬ loginRunSucceeds lenv →
      (login st lenv).1.wallet = st.wallet ∧
      (login st lenv).1.smartWallet = st.smartWallet) ∧
    (∀ orgId w wss a accs,
      lenv.loginRes = Res.ok (some orgId) → orgId ≠ "" →
      lenv.sessionRes = Res.ok true →
      lenv.walletsRes = Res.ok (w :: wss) → w.walletId ≠ "" →
      lenv.accountsRes = Res.ok (a :: accs) → a.address ≠ "" →
      (login st lenv).1.wallet =
        some { id := w.walletId, address := a.address,
               subOrgId := orgId } ∧
      (login st lenv).1.smartWallet =
        some (initializeNewAccount [a.address])) := by
  refine ⟨?_, ?_, ?_, ?_⟩
  · intro hns
    rcases hc : cenv.credentialRes with c | m
    on_goal 2 => constructor <;> simp [createSubOrgAndWallet, hc]
    rcases c with _ | c
    · constructor <;> simp [createSubOrgAndWallet, hc]
    by_cases hg : c.encodedChallenge = "" ∨ c.attestation = ""
    · constructor <;> simp [createSubOrgAndWallet, hc, hg]
    rcases hp : cenv.postRes with resp | m
    on_goal 2 => constructor <;> simp [createSubOrgAndWallet, hc, hg, hp]
    exact absurd ⟨c, resp, hc, hg, hp⟩ hns
  · intro c resp hc hch hat hp
    have hguard : ¬(c.encodedChallenge = "" ∨ c.attestation = "") := by
      rintro (h | h)
      · exact hch h
      · exact hat h
    constructor <;> simp [createSubOrgAndWallet, hc, hp, hguard]
  · intro hns
    rcases hl : lenv.loginRes with o | m
    on_goal 2 => constructor <;> simp [login, hl]
    rcases o with _ | orgId
    · constructor <;> simp [login, hl]
    by_cases horg : orgId = ""
    · constructor <;> simp [login, hl, horg]
    rcases hs : lenv.sessionRes with b | m
    on_goal 2 => constructor <;> simp [login, hl, horg, hs]
    rcases b with _ | _
    · constructor <;> simp [login, hl, horg, hs]
    rcases hw : lenv.walletsRes with ws | m
    on_goal 2 => constructor <;> simp [login, hl, horg, hs, hw]
    rcases ws with _ | ⟨w, wss⟩
    · constructor <;> simp [login, hl, horg, hs, hw]
    by_cases hwid : w.walletId = ""
    · constructor <;> simp [login, hl, horg, hs, hw, hwid]
    rcases ha : lenv.accountsRes with accs | m
    on_goal 2 => constructor <;> simp [login, hl, horg, hs, hw, hwid, ha]
    rcases accs with _ | ⟨a, accs⟩
    · constructor <;> simp [login, hl, horg, hs, hw, hwid, ha]
    by_cases haddr : a.address = ""
    · constructor <;> simp [login, hl, horg, hs, hw, hwid, ha, haddr]
    exact absurd
      ⟨orgId, w, wss, a, accs, hl, horg, hs, hw, hwid, ha, haddr⟩ hns
  · intro orgId w wss a accs hl horg hs hw hwid ha haddr
    constructor <;> simp [login, hl, horg, hs, hw, hwid, ha, haddr]

/-- A creation environment whose provisioning call fails. -/
def cenvFailDemo : CreateEnv :=
  { subOrgName := "demo", credentialRes := .ok (some credDemo),
    postRes := .err "network down" }

/-- Witness for C6: a failed provisioning call leaves the pair untouched,
and a successful run replaces both with the consistent pair. -/
theorem session_state_failure_aborts_success_replaces_witness :
    ((createSubOrgAndWallet stAnon cenvFailDemo).1.wallet =
       stAnon.wallet ∧
     (createSubOrgAndWallet stAnon cenvFailDemo).1.smartWallet =
       stAnon.smartWallet) ∧
    ((createSubOrgAndWallet stAnon cenvOkDemo).1.wallet = some wDemo ∧
     (createSubOrgAndWallet stAnon cenvOkDemo).1.smartWallet =
       some (initializeNewAccount ["0xa1"])) :=
  ⟨(session_state_failure_aborts_success_replaces stAnon cenvFailDemo
      lenvOkDemo).1
      (by rintro ⟨c, resp, hc, hg, hp⟩; simp [cenvFailDemo] at hp),
   (session_state_failure_aborts_success_replaces stAnon cenvOkDemo
      lenvOkDemo).2.1
      credDemo wDemo rfl (by decide) (by decide) rfl⟩

/-- Claim C7: after a successful creation run (ceremony returned a
credential with non-empty challenge and attestation, provisioning call
succeeded), the stored `WalletDetails` is exactly the provisioning
response and the stored smart account was derived with that response's
address as sole owner — so `wallet.address` equals the sole owner passed
to `initializeNewAccount`. -/
theorem creation_address_is_sole_owner (st : AppState) (env : CreateEnv)
    (c : Credential) (resp : TWalletDetails)
    (hc : env.credentialRes = Res.ok (some c))
    (hch : c.encodedChallenge ≠ "") (hat : c.attestation ≠ "")
    (hp : env.postRes = Res.ok resp) :
    (createSubOrgAndWallet st env).1.wallet = some resp ∧
    (createSubOrgAndWallet st env).1.smartWallet =
      some (initializeNewAccount [resp.address]) ∧
    (∀ sa, (createSubOrgAndWallet st env).1.smartWallet = some sa →
      sa.owners = [resp.address]) := by
  have hguard : ¬(c.encodedChallenge = "" ∨ c.attestation = "") := by
    rintro (h | h)
    · exact hch h
    · exact hat h
  refine ⟨?_, ?_, ?_⟩ <;>
    simp [createSubOrgAndWallet, initializeNewAccount, hc, hp, hguard]

/-- Witness for C7 at a concrete environment. -/
theorem creation_address_is_sole_owner_witness :
    (createSubOrgAndWallet stAnon cenvOkDemo).1.wallet = some wDemo :=
  (creation_address_is_sole_owner stAnon cenvOkDemo credDemo wDemo
    rfl (by decide) (by decide) rfl).1

/-- Claim C8: when sponsorship succeeds, the operation carried into
signing and submission is entirely the negotiator's output: the EIP-712
data signed is derived from the paymaster's returned operation (uniquely
so), the only operation ever submitted is that returned operation with
just the signature field attached, and nothing of the builder's operation
(which reached only the paymaster call) survives into signing or
submission. -/
theorem paymaster_output_supersedes_builder (st : AppState)
    (env : SignEnv) (w : TWalletDetails) (sa : SafeAccount)
    (builderOp : UserOperation) (pmp : UserOperation × String)
    (s : String)
    (hw : st.wallet = some w) (hsa : st.smartWallet = some sa)
    (hca : env.createAccountRes = Res.ok ())
    (hcu : env.createUserOpRes = Res.ok builderOp)
    (hpm : env.paymasterRes = Res.ok pmp)
    (hsg : env.signTypedDataRes = Res.ok s) :
    Event.signTypedDataCall (getUserOperationEip712Data pmp.1 chainId) ∈
      (signMessage st env).2 ∧
    (∀ d, Event.signTypedDataCall d ∈ (signMessage st env).2 →
      d = getUserOperationEip712Data pmp.1 chainId) ∧
    (∀ op, Event.paymasterCall op ∈ (signMessage st env).2 →
      op = builderOp) ∧
    (∀ op, Event.sendUserOpCall op ∈ (signMessage st env).2 →
      op = { pmp.1 with signature :=
        (formatEip712SignaturesToUseroperationSignature
          [w.address] [s]) }) := by
  rcases hsd : env.sendRes with uo | m <;>
    rcases hic : env.includedRes with tx | m2 <;>
    refine ⟨?_, ?_, ?_, ?_⟩ <;>
    simp [signMessage, hw, hsa, hca, hcu, hpm, hsg, hsd, hic]

/-- Witness for C8 at a concrete session and environment. -/
theorem paymaster_output_supersedes_builder_witness :
    Event.signTypedDataCall (getUserOperationEip712Data pmOpDemo chainId) ∈
      (signMessage stDemo envOkDemo).2 :=
  (paymaster_output_supersedes_builder stDemo envOkDemo wDemo saDemo
    opDemo (pmOpDemo, "meta") "sig1" rfl rfl rfl rfl rfl rfl).1

/-- Claim C9: the smart-account deriver is a pure function of the owner
list, so a successful account creation and a later successful login that
resolves the same sole owner address install smart accounts with the same
derived account address. -/
theorem deriver_reproduces_account (st1 st2 : AppState)
    (cenv : CreateEnv) (lenv : LoginEnv) (c : Credential)
    (resp : TWalletDetails) (orgId : String) (w : WalletEntry)
    (wss : List WalletEntry) (a : WalletAccount)
    (accs : List WalletAccount)
    (hc : cenv.credentialRes = Res.ok (some c))
    (hch : c.encodedChallenge ≠ "") (hat : c.attestation ≠ "")
    (hp : cenv.postRes = Res.ok resp)
    (hl : lenv.loginRes = Res.ok (some orgId)) (horg : orgId ≠ "")
    (hs : lenv.sessionRes = Res.ok true)
    (hws : lenv.walletsRes = Res.ok (w :: wss)) (hwid : w.walletId ≠ "")
    (has : lenv.accountsRes = Res.ok (a :: accs)) (haddr : a.address ≠ "")
    (hsame : a.address = resp.address) :
    (createSubOrgAndWallet st1 cenv).1.smartWallet =
      some (initializeNewAccount [resp.address]) ∧
    (login st2 lenv).1.smartWallet =
      some (initializeNewAccount [resp.address]) ∧
    (∀ sa1 sa2,
      (createSubOrgAndWallet st1 cenv).1.smartWallet = some sa1 →
      (login st2 lenv).1.smartWallet = some sa2 →
      sa1.accountAddress = sa2.accountAddress) := by
  have hguard : ¬(c.encodedChallenge = "" ∨ c.attestation = "") := by
    rintro (h | h)
    · exact hch h
    · exact hat h
  have hraddr : resp.address ≠ "" := by rw [← hsame]; exact haddr
  refine ⟨?_, ?_, ?_⟩ <;>
    simp [createSubOrgAndWallet, login, hc, hp, hguard, hl, horg, hs,
      hws, hwid, has, haddr, hsame, hraddr]

/-- Witness for C9: concrete creation and login runs resolving the same
sole owner address yield the same derived smart account. -/
theorem deriver_reproduces_account_witness :
    (createSubOrgAndWallet stAnon cenvOkDemo).1.smartWallet =
      some (initializeNewAccount ["0xa1"]) :=
  (deriver_reproduces_account stAnon stAnon cenvOkDemo lenvOkDemo
    credDemo wDemo "org1" { walletId := "wid1" } []
    { address := "0xa1" } []
    rfl (by decide) (by decide) rfl rfl (by decide) rfl rfl (by decide)
    rfl (by decide) rfl).1

/-- Claim C10: every `signMessage` run first resets both displayed hashes
to the empty string (the trace always starts with the two resets); when
`wallet` or `smartWallet` is absent the run throws before any network
call, leaving only the resets and the alert; and the final `txHash` is
never stale: whenever it is non-empty it is exactly this run's inclusion
receipt. -/
theorem reset_first_and_no_stale_txhash (st : AppState) (env : SignEnv) :
    (∃ rest, (signMessage st env).2 =
      Event.setTxHash "" :: Event.setUserOpHash "" :: rest) ∧
    ((st.wallet = none ∨ st.smartWallet = none) →
      (signMessage st env).2 =
        [Event.setTxHash "", Event.setUserOpHash "",
         Event.alertShown (alertMsg "wallet not found")] ∧
      (signMessage st env).1 =
        { st with txHash := "", userOpHash := "" }) ∧
    ((signMessage st env).1.txHash ≠ "" →
      env.includedRes = Res.ok (signMessage st env).1.txHash) := by
  rcases st with ⟨ow, osw, tx0, uo0⟩
  rcases env with ⟨ca, cu, pm, sg, sd, ic⟩
  rcases ow with _ | w <;> rcases osw with _ | sa <;>
    rcases ca with u | m1 <;> rcases cu with bop | m2 <;>
    rcases pm with pmp | m3 <;> rcases sg with s | m4 <;>
    rcases sd with uo | m5 <;> rcases ic with tx | m6 <;>
    refine ⟨⟨_, rfl⟩, ?_, ?_⟩ <;> simp [signMessage]

/-- Witness for C10: from a logged-out state the run stops at the alert
with both hashes reset and no call events. -/
theorem reset_first_and_no_stale_txhash_witness :
    (signMessage stAnon envOkDemo).2 =
      [Event.setTxHash "", Event.setUserOpHash "",
       Event.alertShown (alertMsg "wallet not found")] ∧
    (signMessage stAnon envOkDemo).1 =
      { stAnon with txHash := "", userOpHash := "" } :=
  (reset_first_and_no_stale_txhash stAnon envOkDemo).2.1 (Or.inl rfl)
